import Mathlib

/-!
Shallow embedding of the sensor control / collection / detection core of the
Thingsboard device-side client (Python sources under src/sensors/).  Machine
floats are modelled as rationals; the randomness consumed by the generators and
detectors is passed in explicitly as oracle values; wall-clock readings are
explicit parameters.  Python dictionaries keyed by sensor id are modelled as
association lists that keep insertion order, matching CPython dict semantics.
-/

namespace Thingsboard

/-- Python float rounding to `d` decimal digits: round half to even on the
scaled value.  Modelled exactly on rationals. -/
def roundHalfEven (x : ℚ) : ℤ :=
  if x - Int.floor x < 1/2 then Int.floor x
  else if 1/2 < x - Int.floor x then Int.floor x + 1
  else if 2 ∣ Int.floor x then Int.floor x else Int.floor x + 1

/-- Python `round(x, d)` on our rational model of floats. -/
def pyRound (d : ℕ) (x : ℚ) : ℚ :=
  ((roundHalfEven (x * (10 : ℚ) ^ d) : ℚ)) / (10 : ℚ) ^ d

/-- Python `int(x)`: truncation toward zero. -/
def truncQ (x : ℚ) : ℤ :=
  if 0 ≤ x then Int.floor x else -Int.floor (-x)

/-- Lookup in an insertion-ordered association list (CPython dict read). -/
def trackLookup (l : List (ℕ × ℚ)) (k : ℕ) : Option ℚ :=
  match l with
  | [] => none
  | (q, v) :: rest => if q = k then some v else trackLookup rest k

/-- Assignment `d[k] = v` on an insertion-ordered association list: overwrite
in place when the key is present, append otherwise. -/
def trackSet (l : List (ℕ × ℚ)) (k : ℕ) (v : ℚ) : List (ℕ × ℚ) :=
  match l with
  | [] => [(k, v)]
  | (q, w) :: rest => if q = k then (k, v) :: rest else (q, w) :: trackSet rest k v

/-- Deletion `del d[k]` on an insertion-ordered association list. -/
def trackDel (l : List (ℕ × ℚ)) (k : ℕ) : List (ℕ × ℚ) :=
  match l with
  | [] => []
  | (q, w) :: rest => if q = k then rest else (q, w) :: trackDel rest k

/-!
Ultrasonic control service — src/sensors/ultrasonic/ultrasonic_service.py.
-/

/-- The `_config` dict of `UltrasonicControlService`. -/
structure UltrasonicConfig where
  sensors_enabled : ℤ
  sample_rate_hz : ℚ
  max_range_cm : ℚ
  min_range_cm : ℚ
  temperature_compensation : Bool
  noise_filtering : Bool
deriving Repr, DecidableEq

/-- Default `_config` built in `UltrasonicControlService.__init__`. -/
def UltrasonicConfig.default : UltrasonicConfig :=
  { sensors_enabled := 4
    sample_rate_hz := 10
    max_range_cm := 400
    min_range_cm := 5
    temperature_compensation := true
    noise_filtering := true }

/-- A partial configuration update (the keyword arguments of `apply_config`):
`none` means the key is absent from the update dict. -/
structure UltrasonicConfigUpdate where
  sensors_enabled : Option ℤ := none
  sample_rate_hz : Option ℚ := none
  max_range_cm : Option ℚ := none
  min_range_cm : Option ℚ := none
  temperature_compensation : Option Bool := none
  noise_filtering : Option Bool := none
deriving Repr, DecidableEq

/-- Sequencing of the field-by-field validate-and-assign steps of
`_apply_config`: a raised `ValueError` aborts the remaining steps but keeps
every assignment already performed (Python exception semantics). -/
def cfgStep (r : UltrasonicConfig × Option String)
    (f : UltrasonicConfig → UltrasonicConfig × Option String) :
    UltrasonicConfig × Option String :=
  match r with
  | (c, none) => f c
  | (c, some e) => (c, some e)

/-- `UltrasonicControlService._apply_config`: validates and assigns each
present field in source order (sensors_enabled, sample_rate_hz, max_range_cm,
min_range_cm, temperature_compensation, noise_filtering), then checks
`min_range_cm < max_range_cm` on the resulting config.  Returns the config
state after the call together with the raised error, if any. -/
def UltrasonicControlService.applyConfig (c : UltrasonicConfig)
    (u : UltrasonicConfigUpdate) : UltrasonicConfig × Option String :=
  let r := (c, (none : Option String))
  let r := cfgStep r fun c =>
    match u.sensors_enabled with
    | none => (c, none)
    | some n =>
      if 1 ≤ n ∧ n ≤ 4 then ({ c with sensors_enabled := n }, none)
      else (c, some "sensors_enabled must be between 1 and 4")
  let r := cfgStep r fun c =>
    match u.sample_rate_hz with
    | none => (c, none)
    | some x =>
      if 1/10 ≤ x ∧ x ≤ 100 then ({ c with sample_rate_hz := x }, none)
      else (c, some "sample_rate_hz must be between 0.1 and 100.0")
  let r := cfgStep r fun c =>
    match u.max_range_cm with
    | none => (c, none)
    | some x =>
      if 10 ≤ x ∧ x ≤ 500 then ({ c with max_range_cm := x }, none)
      else (c, some "max_range_cm must be between 10 and 500")
  let r := cfgStep r fun c =>
    match u.min_range_cm with
    | none => (c, none)
    | some x =>
      if 1 ≤ x ∧ x ≤ 50 then ({ c with min_range_cm := x }, none)
      else (c, some "min_range_cm must be between 1 and 50")
  let r := cfgStep r fun c =>
    match u.temperature_compensation with
    | none => (c, none)
    | some b => ({ c with temperature_compensation := b }, none)
  let r := cfgStep r fun c =>
    match u.noise_filtering with
    | none => (c, none)
    | some b => ({ c with noise_filtering := b }, none)
  cfgStep r fun c =>
    if c.max_range_cm ≤ c.min_range_cm then
      (c, some "min_range_cm must be less than max_range_cm")
    else (c, none)

/-- Mutable service fields of `UltrasonicControlService` (the lock and print
calls are not modelled). -/
structure UltrasonicState where
  active : Bool
  config : UltrasonicConfig
  start_time : Option ℚ
  status : String
deriving Repr, DecidableEq

/-- State right after `UltrasonicControlService.__init__`. -/
def UltrasonicState.init : UltrasonicState :=
  { active := false
    config := UltrasonicConfig.default
    start_time := none
    status := "initialized" }

/-- Result dict of `UltrasonicControlService.start` (the message strings are
not modelled; `config` carries the returned config copy when present). -/
structure UltrasonicStartResult where
  success : Bool
  active : Bool
  config : Option UltrasonicConfig
  start_time : Option ℚ
deriving Repr, DecidableEq

/-- `UltrasonicControlService.start`, with the wall clock reading passed in
as `now` (seconds). -/
def UltrasonicControlService.start (s : UltrasonicState) (now : ℚ)
    (config : Option UltrasonicConfigUpdate) :
    UltrasonicState × UltrasonicStartResult :=
  if s.active then
    (s, { success := false, active := true, config := some s.config,
          start_time := none })
  else
    let (c, err) :=
      match config with
      | some u => UltrasonicControlService.applyConfig s.config u
      | none => (s.config, none)
    match err with
    | some _ =>
      ({ s with config := c, status := "error" },
       { success := false, active := false, config := none, start_time := none })
    | none =>
      ({ s with
          config := c,
          active := true,
          start_time := some now,
          status := "operational" },
       { success := true,
         active := true,
         config := some c,
         start_time := some now })

/-- Result dict of `UltrasonicControlService.stop`. -/
structure UltrasonicStopResult where
  success : Bool
  active : Bool
  uptime_seconds : Option ℚ
deriving Repr, DecidableEq

/-- `UltrasonicControlService.stop`, with the wall clock reading passed in
as `now` (seconds). -/
def UltrasonicControlService.stop (s : UltrasonicState) (now : ℚ) :
    UltrasonicState × UltrasonicStopResult :=
  if ¬ s.active then
    (s, { success := false, active := false, uptime_seconds := none })
  else
    let uptime : ℚ :=
      match s.start_time with
      | some t0 => now - t0
      | none => 0
    ({ s with active := false, status := "stopped" },
     { success := true, active := false, uptime_seconds := some (pyRound 1 uptime) })

/-!
LiDAR control service and data collector —
src/sensors/lidar/lidar_control_service.py and lidar_collector.py.
-/

/-- The `range_filter` sub-dict of the LiDAR `_state`. -/
structure RangeFilter where
  min_range_m : ℚ
  max_range_m : ℚ
deriving Repr, DecidableEq

/-- The `_state` dict of `LidarControlService`.  Timestamps are epoch
milliseconds. -/
structure LidarState where
  active : Bool
  scan_rate_hz : ℚ
  resolution : String
  range_filter : RangeFilter
  temperature : ℚ
  status : String
  last_started : Option ℤ
  last_stopped : Option ℤ
  total_scans : ℕ
  error_count : ℕ
deriving Repr, DecidableEq

/-- State right after `LidarControlService.__init__`. -/
def LidarState.init : LidarState :=
  { active := false
    scan_rate_hz := 10
    resolution := "medium"
    range_filter := { min_range_m := 1/2, max_range_m := 30 }
    temperature := 35
    status := "idle"
    last_started := none
    last_stopped := none
    total_scans := 0
    error_count := 0 }

/-- Partial update of the `range_filter` dict: absent keys default to the
currently applied bounds (`range_filter.get(..., current)` in the source). -/
structure RangeFilterUpdate where
  min_range_m : Option ℚ := none
  max_range_m : Option ℚ := none
deriving Repr, DecidableEq

/-- A partial LiDAR configuration update (the non-None keyword arguments of
`apply_config`, i.e. the keys present in the `config` dict). -/
structure LidarConfigUpdate where
  scan_rate_hz : Option ℚ := none
  resolution : Option String := none
  range_filter : Option RangeFilterUpdate := none
deriving Repr, DecidableEq

/-- The generation parameters the collector reads from the pushed state dict
(`scan_rate_hz`, `resolution`, `range_filter`). -/
structure LidarParams where
  scan_rate_hz : ℚ
  resolution : String
  range_filter : RangeFilter
deriving Repr, DecidableEq

/-- Parameter snapshot the control service pushes to the collector (the
relevant keys of the `_state` dict it passes). -/
def LidarState.genParams (s : LidarState) : LidarParams :=
  { scan_rate_hz := s.scan_rate_hz
    resolution := s.resolution
    range_filter := s.range_filter }

/-- One telemetry entry produced by
`LidarDataCollector._generate_telemetry_data` (the `values` mapping plus the
`ts` key). -/
structure LidarTelemetry where
  ts : ℤ
  point_count : ℤ
  valid_points : ℤ
  max_range : ℚ
  min_range : ℚ
  avg_reflectivity : ℚ
  scan_frequency : ℚ
  temperature : ℚ
  status : String
deriving Repr, DecidableEq

/-- Randomness consumed by one `_generate_telemetry_data` call: the values
returned by the `random.randint` / `random.uniform` / `random.choice` calls,
in call order. -/
structure LidarGenOracle where
  point_count : ℤ
  valid_points : ℤ
  u_max : ℚ
  u_min : ℚ
  reflectivity : ℚ
  freq_jitter : ℚ
  temp_jitter : ℚ
  status : String
deriving Repr, DecidableEq

/-- `LidarDataCollector` fields (file handling and the lock are not
modelled).  `loops_started` counts the collection threads actually launched,
to make the no-second-loop guarantee observable. -/
structure LidarDataCollector where
  collecting : Bool
  parameters : LidarParams
  current_telemetry : Option LidarTelemetry
  telemetry_entries : List LidarTelemetry
  start_epoch : Option ℤ
  loops_started : ℕ
deriving Repr, DecidableEq

/-- State right after `LidarDataCollector.__init__`.  The Python `_parameters`
dict starts empty; every read in the generator defaults the missing keys to
scan rate 10.0, resolution medium and range [0.5, 30.0], so the empty dict is
modelled as those defaults. -/
def LidarDataCollector.init : LidarDataCollector :=
  { collecting := false
    parameters :=
      { scan_rate_hz := 10
        resolution := "medium"
        range_filter := { min_range_m := 1/2, max_range_m := 30 } }
    current_telemetry := none
    telemetry_entries := []
    start_epoch := none
    loops_started := 0 }

/-- `LidarDataCollector.start_collection`: a no-op when already collecting,
otherwise snapshots the parameters, records the epoch and launches the
collection thread. -/
def LidarDataCollector.start_collection (c : LidarDataCollector)
    (parameters : LidarParams) (nowEpoch : ℤ) : LidarDataCollector :=
  if c.collecting then c
  else
    { c with
        collecting := true,
        parameters := parameters,
        start_epoch := some nowEpoch,
        loops_started := c.loops_started + 1 }

/-- `LidarDataCollector.stop_collection`: a no-op when not collecting,
otherwise clears the collecting flag (the thread exits on its own). -/
def LidarDataCollector.stop_collection (c : LidarDataCollector) :
    LidarDataCollector :=
  if ¬ c.collecting then c else { c with collecting := false }

/-- `LidarDataCollector.update_parameters`: the control service pushes its
whole state dict, overwriting every generation key. -/
def LidarDataCollector.update_parameters (c : LidarDataCollector)
    (parameters : LidarParams) : LidarDataCollector :=
  { c with parameters := parameters }

/-- `LidarDataCollector.get_current_telemetry`: returns `None` when not
collecting or when no sample has been cached, the cached sample otherwise. -/
def LidarDataCollector.get_current_telemetry (c : LidarDataCollector) :
    Option LidarTelemetry :=
  if ¬ c.collecting then none
  else match c.current_telemetry with
       | none => none
       | some t => some t

/-- `LidarDataCollector._generate_telemetry_data` for a parameter snapshot,
wall clock `now` (epoch ms) and a randomness oracle. -/
def LidarDataCollector.generate_telemetry_data (p : LidarParams)
    (now : ℤ) (o : LidarGenOracle) : LidarTelemetry :=
  let max_range : ℚ := p.range_filter.max_range_m + o.u_max
  let min_range : ℚ := p.range_filter.min_range_m + o.u_min
  let max_range : ℚ := min max_range p.range_filter.max_range_m
  let min_range : ℚ := max min_range p.range_filter.min_range_m
  { ts := now
    point_count := o.point_count
    valid_points := o.valid_points
    max_range := pyRound 1 max_range
    min_range := pyRound 2 min_range
    avg_reflectivity := o.reflectivity
    scan_frequency := pyRound 2 (p.scan_rate_hz + o.freq_jitter)
    temperature := pyRound 1 (35 + o.temp_jitter)
    status := o.status }

/-- Bounds the generator imposes on its randomness oracle, from the literal
bounds of the `random.randint` / `random.uniform` / `random.choice` calls. -/
def LidarGenOracle.inRange (p : LidarParams) (o : LidarGenOracle) : Prop :=
  let base_points : ℤ :=
    if p.resolution = "high" then 275000 + 20000
    else if p.resolution = "low" then 275000 - 20000
    else 275000
  let variance : ℤ :=
    if p.resolution = "low" then 15000 / 2 else 15000
  let max_range_variance : ℚ := min 1 (p.range_filter.max_range_m * (5/100))
  let min_range_variance : ℚ := min (5/100) (p.range_filter.min_range_m * (1/10))
  base_points - variance ≤ o.point_count ∧ o.point_count ≤ base_points + variance ∧
  -max_range_variance ≤ o.u_max ∧ o.u_max ≤ 0 ∧
  0 ≤ o.u_min ∧ o.u_min ≤ min_range_variance ∧
  (o.status = "operational" ∨ o.status = "warming_up" ∨ o.status = "calibrating")

/-- One iteration of `LidarDataCollector._collection_loop` while collecting:
generate a sample, cache it as the current telemetry and append it to the
session log (file write and detector hook handled separately). -/
def LidarDataCollector.collection_tick (c : LidarDataCollector)
    (now : ℤ) (o : LidarGenOracle) : LidarDataCollector :=
  let t := LidarDataCollector.generate_telemetry_data c.parameters now o
  { c with
      current_telemetry := some t,
      telemetry_entries := c.telemetry_entries ++ [t] }

/-- `LidarControlService._apply_configuration`: validates and assigns the
present fields in source order (scan_rate_hz, resolution, range_filter)
directly into `_state`; a raised `ValueError` keeps the assignments already
performed.  Returns the state after the call and the raised error, if any.
The push of the new parameters to an active collector is modelled in
`LidarControlService.start` separately; this function returns the config
part. -/
def LidarControlService.applyConfiguration (s : LidarState)
    (u : LidarConfigUpdate) : LidarState × Option String :=
  let step1 : LidarState × Option String :=
    match u.scan_rate_hz with
    | none => (s, none)
    | some r =>
      if 1 ≤ r ∧ r ≤ 50 then ({ s with scan_rate_hz := r }, none)
      else (s, some "Invalid scan rate")
  match step1 with
  | (s, some e) => (s, some e)
  | (s, none) =>
    let step2 : LidarState × Option String :=
      match u.resolution with
      | none => (s, none)
      | some res =>
        let res := res.toLower
        if res = "high" ∨ res = "medium" ∨ res = "low" then
          ({ s with resolution := res }, none)
        else (s, some "Invalid resolution")
    match step2 with
    | (s, some e) => (s, some e)
    | (s, none) =>
      match u.range_filter with
      | none => (s, none)
      | some rf =>
        let min_range := rf.min_range_m.getD s.range_filter.min_range_m
        let max_range := rf.max_range_m.getD s.range_filter.max_range_m
        if 1/10 ≤ min_range ∧ min_range ≤ max_range ∧ max_range ≤ 100 then
          ({ s with range_filter :=
              { min_range_m := min_range, max_range_m := max_range } }, none)
        else (s, some "Invalid range filter")

/-- Result of `LidarControlService.start`: either the `current_state()` copy,
or the error dict `\x7bactive: False, status: error\x7d` from the except
branch. -/
inductive LidarStartResult where
  | ok (state : LidarState)
  | errorResult
deriving Repr, DecidableEq

/-- `LidarControlService.start` with an attached data collector.  There is no
already-active guard: the configuration is applied (if given), the state is
marked operational with a fresh `last_started` and a cleared error counter,
and `start_collection` is invoked on the collector (which itself ignores the
call when already collecting).  `nowMs` is the epoch-millisecond clock
reading, `nowEpoch` the epoch-second reading the collector records. -/
def LidarControlService.start (s : LidarState) (col : LidarDataCollector)
    (nowMs : ℤ) (nowEpoch : ℤ) (config : Option LidarConfigUpdate) :
    LidarState × LidarDataCollector × LidarStartResult :=
  let applied : LidarState × Option String :=
    match config with
    | some u => LidarControlService.applyConfiguration s u
    | none => (s, none)
  match applied with
  | (s, some _) =>
    ({ s with status := "error", error_count := s.error_count + 1 }, col,
     LidarStartResult.errorResult)
  | (s, none) =>
    let s :=
      { s with
          active := true,
          status := "operational",
          last_started := some nowMs,
          error_count := 0 }
    let col := col.start_collection s.genParams nowEpoch
    (s, col, LidarStartResult.ok s)

/-- `LidarControlService.stop` with an attached data collector.  There is no
inactive guard: the collector is stopped, the state is marked idle with a
fresh `last_stopped`, and the `current_state()` copy is returned (the
returned dict has no `success` key). -/
def LidarControlService.stop (s : LidarState) (col : LidarDataCollector)
    (nowMs : ℤ) : LidarState × LidarDataCollector × LidarState :=
  let col := col.stop_collection
  let s := { s with active := false, status := "idle", last_stopped := some nowMs }
  (s, col, s)

/-!
Occupancy detector — src/sensors/lidar/occupancy_detector.py.
-/

/-- `random.choice` over a literal list of booleans: the oracle supplies the
chosen index. -/
def choiceList (l : List Bool) (i : ℕ) : Bool :=
  l.getD (i % l.length) false

/-- Randomness consumed by one `process_telemetry_data` call of the occupancy
detector, in call order: the `random.choice` index of `_analyze_point_cloud`,
the confidence jitter of `_calculate_confidence`, and the object attributes
drawn in `_generate_detailed_occupancy_data` when occupancy is detected. -/
structure OccOracle where
  pick : ℕ
  conf_jitter : ℚ
  object_height : ℚ
  object_width : ℚ
  object_length : ℚ
  distance_from_sensor : ℚ
  density_jitter : ℚ
deriving Repr, DecidableEq

/-- Mutable fields of `OccupancyDetector` (lock, thread handle and clock
bookkeeping are not modelled); `hasCallback` models whether
`_telemetry_callback` is set. -/
structure OccupancyDetector where
  detecting : Bool
  hasCallback : Bool
  detection_count : ℕ
  current_occupancy : Bool
  confidence_threshold : ℚ
deriving Repr, DecidableEq

/-- State right after `OccupancyDetector.__init__` with a callback
attached. -/
def OccupancyDetector.init (hasCallback : Bool) : OccupancyDetector :=
  { detecting := false
    hasCallback := hasCallback
    detection_count := 0
    current_occupancy := false
    confidence_threshold := 3/4 }

/-- `OccupancyDetector.start_detection`: rejected when already detecting,
otherwise clears the counter and launches the polling thread. -/
def OccupancyDetector.start_detection (d : OccupancyDetector) :
    OccupancyDetector × Bool :=
  if d.detecting then (d, false)
  else ({ d with detecting := true, detection_count := 0 }, true)

/-- `OccupancyDetector.stop_detection`: rejected when not detecting,
otherwise clears the detecting flag. -/
def OccupancyDetector.stop_detection (d : OccupancyDetector) :
    OccupancyDetector × Bool :=
  if ¬ d.detecting then (d, false)
  else ({ d with detecting := false }, true)

/-- `OccupancyDetector._analyze_point_cloud`: each point-count band draws
from a literal boolean list via `random.choice`. -/
def OccupancyDetector.analyze_point_cloud (point_count : ℤ) (pick : ℕ) : Bool :=
  if point_count > 280000 then choiceList [true, true, false] pick
  else if point_count < 260000 then choiceList [false, false, true] pick
  else choiceList [true, false] pick

/-- `OccupancyDetector._calculate_confidence`. -/
def OccupancyDetector.calculate_confidence (point_count valid_points : ℤ)
    (jitter : ℚ) : ℚ :=
  let data_quality : ℚ :=
    if point_count > 0 then (valid_points : ℚ) / (point_count : ℚ) else 0
  let base_confidence : ℚ := 7/10 + data_quality * (25/100)
  let confidence : ℚ := base_confidence + jitter
  pyRound 2 (max (1/2) (min (99/100) confidence))

/-- The `values` mapping produced by
`OccupancyDetector._generate_detailed_occupancy_data`. -/
structure OccupancyValues where
  detected : Bool
  confidence : ℚ
  object_height : ℚ
  object_width : ℚ
  object_length : ℚ
  distance_from_sensor : ℚ
  point_density : ℤ
  point_count : ℤ
  valid_points : ℤ
  data_quality : ℚ
  analysis_timestamp : ℤ
deriving Repr, DecidableEq

/-- `OccupancyDetector._generate_detailed_occupancy_data`: object attributes
are drawn from the oracle when occupancy is detected and zeroed otherwise. -/
def OccupancyDetector.generate_detailed_occupancy_data
    (occupancy_detected : Bool) (confidence : ℚ) (point_count valid_points : ℤ)
    (o : OccOracle) (nowMs : ℤ) : OccupancyValues :=
  let common_quality : ℚ :=
    pyRound 3 (if point_count > 0 then (valid_points : ℚ) / (point_count : ℚ) else 0)
  if occupancy_detected then
    { detected := true
      confidence := confidence
      object_height := pyRound 2 o.object_height
      object_width := pyRound 2 o.object_width
      object_length := pyRound 2 o.object_length
      distance_from_sensor := pyRound 1 o.distance_from_sensor
      point_density :=
        max 50 (truncQ (200 - pyRound 1 o.distance_from_sensor * 15 + o.density_jitter))
      point_count := point_count
      valid_points := valid_points
      data_quality := common_quality
      analysis_timestamp := nowMs }
  else
    { detected := false
      confidence := confidence
      object_height := 0
      object_width := 0
      object_length := 0
      distance_from_sensor := 0
      point_density := 0
      point_count := point_count
      valid_points := valid_points
      data_quality := common_quality
      analysis_timestamp := nowMs }

/-- An occupancy detection result: the `ts` key plus the detailed values. -/
structure OccupancyResult where
  ts : ℤ
  values : OccupancyValues
deriving Repr, DecidableEq

/-- `OccupancyDetector.process_telemetry_data` on a well-formed telemetry
sample.  Returns the detector state after the call, the returned result (or
`none` when detection is inactive), and the list of publish-callback
invocations the call performed. -/
def OccupancyDetector.process_telemetry_data (d : OccupancyDetector)
    (sample : LidarTelemetry) (o : OccOracle) (nowMs : ℤ) :
    OccupancyDetector × Option OccupancyResult × List OccupancyResult :=
  if ¬ d.detecting then (d, none, [])
  else
    let point_count := sample.point_count
    let valid_points := sample.valid_points
    let occupancy_detected :=
      OccupancyDetector.analyze_point_cloud point_count o.pick
    let confidence :=
      OccupancyDetector.calculate_confidence point_count valid_points o.conf_jitter
    let occupancy_details :=
      OccupancyDetector.generate_detailed_occupancy_data occupancy_detected
        confidence point_count valid_points o nowMs
    let occupancy_result : OccupancyResult :=
      { ts := sample.ts, values := occupancy_details }
    let d :=
      { d with
          current_occupancy := occupancy_detected,
          detection_count := d.detection_count + 1 }
    let callbacks :=
      if d.hasCallback ∧ occupancy_detected then [occupancy_result] else []
    (d, some occupancy_result, callbacks)

/-!
Proximity detector — src/sensors/ultrasonic/proximity_detector.py.
-/

/-- Mutable fields of `ProximityDetector` (lock, thread handle and clock
bookkeeping are not modelled).  `sensor_thresholds` is the per-sensor
threshold dict, `alert_duration_tracking` maps a sensor id to the
first-crossing timestamp (seconds); the Python keys `sensor_<id>` are
modelled by the id itself. -/
structure ProximityDetector where
  detecting : Bool
  hasCallback : Bool
  detection_count : ℕ
  sensor_thresholds : List (ℕ × ℚ)
  confidence_threshold : ℚ
  alert_duration_tracking : List (ℕ × ℚ)
deriving Repr, DecidableEq

/-- State right after `ProximityDetector.__init__` with a callback
attached. -/
def ProximityDetector.init (hasCallback : Bool) : ProximityDetector :=
  { detecting := false
    hasCallback := hasCallback
    detection_count := 0
    sensor_thresholds := [(1, 50), (2, 50), (3, 50), (4, 50)]
    confidence_threshold := 8/10
    alert_duration_tracking := [] }

/-- `ProximityDetector.start_detection`: rejected when already detecting,
otherwise clears the counter and the duration tracking and launches the
polling thread. -/
def ProximityDetector.start_detection (d : ProximityDetector) :
    ProximityDetector × Bool :=
  if d.detecting then (d, false)
  else
    ({ d with
        detecting := true,
        detection_count := 0,
        alert_duration_tracking := [] }, true)

/-- `ProximityDetector.stop_detection`: rejected when not detecting,
otherwise clears the detecting flag. -/
def ProximityDetector.stop_detection (d : ProximityDetector) :
    ProximityDetector × Bool :=
  if ¬ d.detecting then (d, false)
  else ({ d with detecting := false }, true)

/-- `ProximityDetector.update_sensor_threshold`. -/
def ProximityDetector.update_sensor_threshold (d : ProximityDetector)
    (sensor_id : ℕ) (threshold_cm : ℚ) : ProximityDetector × Bool :=
  if 1 ≤ sensor_id ∧ sensor_id ≤ 4 ∧ 5 ≤ threshold_cm ∧ threshold_cm ≤ 200 then
    ({ d with sensor_thresholds := trackSet d.sensor_thresholds sensor_id threshold_cm },
     true)
  else (d, false)

/-- `ProximityDetector.update_confidence_threshold`. -/
def ProximityDetector.update_confidence_threshold (d : ProximityDetector)
    (confidence : ℚ) : ProximityDetector × Bool :=
  if 0 ≤ confidence ∧ confidence ≤ 1 then
    ({ d with confidence_threshold := confidence }, true)
  else (d, false)

/-- The per-sensor threshold read `self._sensor_thresholds.get(id, 50)`. -/
def ProximityDetector.thresholdOf (d : ProximityDetector) (sensor_id : ℕ) : ℚ :=
  (trackLookup d.sensor_thresholds sensor_id).getD 50

/-- The alert dict built by `ProximityDetector._analyze_proximity`. -/
structure AlertData where
  sensor_id : ℕ
  distance_cm : ℚ
  threshold_cm : ℚ
  duration_ms : ℤ
  object_approaching : Bool
  confidence : ℚ
deriving Repr, DecidableEq

/-- `ProximityDetector._analyze_proximity` for one sensor reading, with the
wall clock reading `now` (seconds) and the `random.choice` outcome for the
simulated approach flag.  Returns the detector state after the call and the
alert data, if any. -/
def ProximityDetector.analyze_proximity (d : ProximityDetector)
    (sensor_id : ℕ) (distance confidence : ℚ) (now : ℚ) (approaching : Bool) :
    ProximityDetector × Option AlertData :=
  if confidence < d.confidence_threshold then (d, none)
  else
    let threshold := d.thresholdOf sensor_id
    if distance ≤ threshold then
      match trackLookup d.alert_duration_tracking sensor_id with
      | none =>
        ({ d with alert_duration_tracking :=
            trackSet d.alert_duration_tracking sensor_id now },
         some { sensor_id := sensor_id, distance_cm := distance,
                threshold_cm := threshold, duration_ms := 0,
                object_approaching := approaching, confidence := confidence })
      | some start_time =>
        (d,
         some { sensor_id := sensor_id, distance_cm := distance,
                threshold_cm := threshold,
                duration_ms := truncQ ((now - start_time) * 1000),
                object_approaching := approaching, confidence := confidence })
    else
      ({ d with alert_duration_tracking :=
          trackDel d.alert_duration_tracking sensor_id }, none)

/-- One ultrasonic telemetry sample as read by the proximity detector:
`ts` plus, per sensor id, the `distance_cm` and `confidence` values.  Keys
absent from the `values` dict default to distance 999 and confidence 0. -/
structure UltrasonicSample where
  ts : ℤ
  readings : List (ℕ × ℚ × ℚ)
deriving Repr, DecidableEq

/-- Association-list lookup for sample readings. -/
def readingLookup (l : List (ℕ × ℚ × ℚ)) (k : ℕ) : Option (ℚ × ℚ) :=
  match l with
  | [] => none
  | (q, v) :: rest => if q = k then some v else readingLookup rest k

/-- `telemetry_data.values.get(ultrasonic.sensor_<id>.distance_cm, 999)`. -/
def UltrasonicSample.dist (s : UltrasonicSample) (sensor_id : ℕ) : ℚ :=
  ((readingLookup s.readings sensor_id).map Prod.fst).getD 999

/-- `telemetry_data.values.get(ultrasonic.sensor_<id>.confidence, 0)`. -/
def UltrasonicSample.conf (s : UltrasonicSample) (sensor_id : ℕ) : ℚ :=
  ((readingLookup s.readings sensor_id).map Prod.snd).getD 0

/-- The sensor loop `for sensor_id in range(1, 5)` of
`process_telemetry_data`, unrolled: threads the detector state through the
four `_analyze_proximity` calls and collects the alerts in sensor order.
`approach` gives the `random.choice` outcome per sensor. -/
def ProximityDetector.processChannels (d : ProximityDetector)
    (s : UltrasonicSample) (now : ℚ) (approach : ℕ → Bool) :
    ProximityDetector × List AlertData :=
  let r1 := d.analyze_proximity 1 (s.dist 1) (s.conf 1) now (approach 1)
  let r2 := r1.1.analyze_proximity 2 (s.dist 2) (s.conf 2) now (approach 2)
  let r3 := r2.1.analyze_proximity 3 (s.dist 3) (s.conf 3) now (approach 3)
  let r4 := r3.1.analyze_proximity 4 (s.dist 4) (s.conf 4) now (approach 4)
  (r4.1, r1.2.toList ++ r2.2.toList ++ r3.2.toList ++ r4.2.toList)

/-- Python `min(alerts, key=lambda x: x[distance_cm])` over a nonempty list:
the first element attaining the minimal distance. -/
def minByDistance (a : AlertData) (l : List AlertData) : AlertData :=
  l.foldl (fun acc x => if x.distance_cm < acc.distance_cm then x else acc) a

/-- The proximity alert telemetry record emitted for the closest alerting
sensor. -/
structure ProximityResult where
  ts : ℤ
  sensor_id : ℕ
  distance_cm : ℚ
  threshold_cm : ℚ
  duration_ms : ℤ
  object_approaching : Bool
deriving Repr, DecidableEq

/-- `ProximityDetector.process_telemetry_data` on a well-formed telemetry
sample.  Returns the detector state after the call, the returned result (or
`none` when detection is inactive or no sensor alerts), and the list of
publish-callback invocations the call performed. -/
def ProximityDetector.process_telemetry_data (d : ProximityDetector)
    (sample : UltrasonicSample) (now : ℚ) (approach : ℕ → Bool) :
    ProximityDetector × Option ProximityResult × List ProximityResult :=
  if ¬ d.detecting then (d, none, [])
  else
    let r := d.processChannels sample now approach
    let d1 := r.1
    match r.2 with
    | [] => (d1, none, [])
    | a :: rest =>
      let closest_alert := minByDistance a rest
      let proximity_result : ProximityResult :=
        { ts := sample.ts
          sensor_id := closest_alert.sensor_id
          distance_cm := closest_alert.distance_cm
          threshold_cm := closest_alert.threshold_cm
          duration_ms := closest_alert.duration_ms
          object_approaching := closest_alert.object_approaching }
      let d2 := { d1 with detection_count := d1.detection_count + 1 }
      let callbacks := if d2.hasCallback then [proximity_result] else []
      (d2, some proximity_result, callbacks)

/-!
Derived observations and test fixtures.
-/

/-- The alert duration `_analyze_proximity` would report for a sensor at
clock reading `now`: zero on a first crossing, the elapsed milliseconds
since the tracked first-crossing timestamp otherwise. -/
def ProximityDetector.durationOf (d : ProximityDetector) (sensor_id : ℕ)
    (now : ℚ) : ℤ :=
  match trackLookup d.alert_duration_tracking sensor_id with
  | none => 0
  | some start_time => truncQ ((now - start_time) * 1000)

/-- Whether `_analyze_proximity` classifies the given channel of a sample as
alerting: confidence at or above the global threshold and distance at or
below the per-channel threshold. -/
def ProximityDetector.channelAlerting (d : ProximityDetector)
    (s : UltrasonicSample) (i : ℕ) : Bool :=
  decide (d.confidence_threshold ≤ s.conf i ∧ s.dist i ≤ d.thresholdOf i)

/-- Whether any of the four channels of a sample alerts. -/
def ProximityDetector.wouldAlert (d : ProximityDetector)
    (s : UltrasonicSample) : Bool :=
  [1, 2, 3, 4].any (d.channelAlerting s)

/-- Fixture: an active LiDAR control state with a recorded start and a
nonzero error counter. -/
def activeLidarFixture : LidarState :=
  { LidarState.init with
      active := true,
      status := "operational",
      last_started := some 100,
      error_count := 3 }

/-- Fixture: a collector with a running collection loop. -/
def collectingFixture : LidarDataCollector :=
  { LidarDataCollector.init with collecting := true, loops_started := 1 }

/-- Fixture: a generator randomness oracle inside all the literal bounds of
the random calls for the default parameters. -/
def genOracleFixture : LidarGenOracle :=
  { point_count := 275000
    valid_points := 260000
    u_max := -1/2
    u_min := 1/100
    reflectivity := 3/4
    freq_jitter := 0
    temp_jitter := 0
    status := "operational" }

/-- Fixture: a LiDAR telemetry sample as produced by the generator. -/
def lidarSampleFixture : LidarTelemetry :=
  LidarDataCollector.generate_telemetry_data LidarDataCollector.init.parameters
    100000 genOracleFixture

/-- Fixture: an ultrasonic sample with sensor 1 close and confident, sensor 2
close but noisy, sensors 3 and 4 clear. -/
def ultrasonicSampleFixture : UltrasonicSample :=
  { ts := 100000
    readings := [(1, 40, 9/10), (2, 30, 1/2), (3, 120, 9/10), (4, 999, 9/10)] }

/-- Fixture: an ultrasonic sample with no alerting channel. -/
def ultrasonicQuietFixture : UltrasonicSample :=
  { ts := 100500
    readings := [(1, 80, 9/10), (2, 90, 9/10), (3, 120, 9/10), (4, 999, 9/10)] }

/-- Fixture: an occupancy-detector randomness oracle. -/
def genOracleFixtureOcc : OccOracle :=
  { pick := 0
    conf_jitter := 0
    object_height := 18/10
    object_width := 2
    object_length := 45/10
    distance_from_sensor := 3
    density_jitter := 0 }

/-- Fixture: an active ultrasonic control state. -/
def activeUltrasonicFixture : UltrasonicState :=
  { UltrasonicState.init with
      active := true,
      status := "operational",
      start_time := some 1 }

/-- Fixture: a collector that generated one sample and was then stopped. -/
def stoppedCollectorFixture : LidarDataCollector :=
  (((LidarDataCollector.init.start_collection LidarDataCollector.init.parameters
      100).collection_tick 100500 genOracleFixture)).stop_collection

/-!
Theorems.  Helper lemmas first, then one theorem per claim (with its witness
or counterexample where required).
-/

theorem roundHalfEven_bounds (m M : ℤ) (x : ℚ) (h1 : (m : ℚ) ≤ x)
    (h2 : x ≤ (M : ℚ)) : m ≤ roundHalfEven x ∧ roundHalfEven x ≤ M := by
  have hf1 : m ≤ Int.floor x := Int.le_floor.mpr h1
  have hf2 : Int.floor x ≤ M := by
    have h := Int.floor_le_floor h2
    simpa using h
  have hup : (1/2 : ℚ) ≤ x - Int.floor x → Int.floor x + 1 ≤ M := by
    intro hfrac
    have hx : (Int.floor x : ℚ) < x := by linarith
    have hxM : (Int.floor x : ℚ) < (M : ℚ) := lt_of_lt_of_le hx h2
    have : Int.floor x < M := by exact_mod_cast hxM
    omega
  unfold roundHalfEven
  split_ifs with c1 c2 c3
  · exact ⟨hf1, hf2⟩
  · exact ⟨by omega, hup (by linarith)⟩
  · exact ⟨hf1, hf2⟩
  · exact ⟨by omega, hup (by linarith)⟩

theorem pyRound_bounds (d : ℕ) (ka kb : ℤ) (x : ℚ)
    (h1 : (ka : ℚ) ≤ x * 10 ^ d) (h2 : x * 10 ^ d ≤ (kb : ℚ)) :
    (ka : ℚ) / 10 ^ d ≤ pyRound d x ∧ pyRound d x ≤ (kb : ℚ) / 10 ^ d := by
  obtain ⟨hl, hu⟩ := roundHalfEven_bounds ka kb (x * 10 ^ d) h1 h2
  have hl2 : (ka : ℚ) ≤ (roundHalfEven (x * 10 ^ d) : ℚ) := by exact_mod_cast hl
  have hu2 : (roundHalfEven (x * 10 ^ d) : ℚ) ≤ (kb : ℚ) := by exact_mod_cast hu
  unfold pyRound
  constructor <;> gcongr

/-- C10: when detection is not active, `process_telemetry_data` of either
detector variant returns `none`, performs no publish-callback invocation and
leaves the whole detector state (counter, occupancy flag, duration tracking)
unchanged. -/
theorem process_inactive_noop :
    (∀ (d : OccupancyDetector) (sample : LidarTelemetry) (o : OccOracle)
       (nowMs : ℤ), d.detecting = false →
       d.process_telemetry_data sample o nowMs = (d, none, [])) ∧
    (∀ (d : ProximityDetector) (sample : UltrasonicSample) (now : ℚ)
       (approach : ℕ → Bool), d.detecting = false →
       d.process_telemetry_data sample now approach = (d, none, [])) := by
  constructor
  · intro d sample o nowMs h
    simp [OccupancyDetector.process_telemetry_data, h]
  · intro d sample now approach h
    simp [ProximityDetector.process_telemetry_data, h]

/-- Witness for C10 at freshly constructed detectors and concrete samples. -/
theorem process_inactive_noop_witness :
    (OccupancyDetector.init true).process_telemetry_data lidarSampleFixture
        genOracleFixtureOcc 100100 =
      (OccupancyDetector.init true, none, []) ∧
    (ProximityDetector.init true).process_telemetry_data ultrasonicSampleFixture
        100 (fun _ => true) =
      (ProximityDetector.init true, none, []) :=
  ⟨process_inactive_noop.1 (OccupancyDetector.init true) lidarSampleFixture
      genOracleFixtureOcc 100100 rfl,
   process_inactive_noop.2 (ProximityDetector.init true) ultrasonicSampleFixture
      100 (fun _ => true) rfl⟩

/-- C3 (amended): `stop()` on an inactive ultrasonic service returns
`success=false` and leaves the state unchanged; `stop()` on an inactive
LiDAR service has no inactive guard: it runs the stop sequence anyway,
setting the status to idle and recording a fresh stop timestamp, and
returns the state copy (which reports `active=false` but carries no
success flag). -/
theorem stop_when_inactive :
    (∀ (s : UltrasonicState) (now : ℚ), s.active = false →
       UltrasonicControlService.stop s now =
         (s, { success := false, active := false, uptime_seconds := none })) ∧
    (∀ (s : LidarState) (col : LidarDataCollector) (nowMs : ℤ),
       s.active = false → col.collecting = false →
       LidarControlService.stop s col nowMs =
         ({ s with active := false, status := "idle", last_stopped := some nowMs },
          col,
          { s with active := false, status := "idle", last_stopped := some nowMs })) := by
  constructor
  · intro s now h
    simp [UltrasonicControlService.stop, h]
  · intro s col nowMs _ hcol
    simp [LidarControlService.stop, LidarDataCollector.stop_collection, hcol]

/-- Witness for C3 at the freshly initialized services. -/
theorem stop_when_inactive_witness :
    UltrasonicControlService.stop UltrasonicState.init 7 =
      (UltrasonicState.init,
       { success := false, active := false, uptime_seconds := none }) ∧
    LidarControlService.stop LidarState.init LidarDataCollector.init 500 =
      ({ LidarState.init with
           active := false, status := "idle", last_stopped := some 500 },
       LidarDataCollector.init,
       { LidarState.init with
           active := false, status := "idle", last_stopped := some 500 }) :=
  ⟨stop_when_inactive.1 UltrasonicState.init 7 rfl,
   stop_when_inactive.2 LidarState.init LidarDataCollector.init 500 rfl rfl⟩

/-- Counterexample to C3 as stated: stopping the inactive LiDAR service does
not leave the state unchanged — it records a new stop timestamp (and the
returned dict carries no `success=false`). -/
theorem lidar_stop_mutates_when_inactive :
    LidarState.init.active = false ∧
    (LidarControlService.stop LidarState.init LidarDataCollector.init 500).1 ≠
      LidarState.init ∧
    ((LidarControlService.stop LidarState.init LidarDataCollector.init
        500).1).last_stopped = some 500 := by
  refine ⟨rfl, ?_, rfl⟩
  intro h
  have := congrArg LidarState.last_stopped h
  simp [LidarControlService.stop, LidarDataCollector.stop_collection,
    LidarState.init] at this

/-- C2 (amended): `start()` on the already-active ultrasonic service is
idempotent — it returns `success=false` with `active=true` and the current
config, and changes nothing.  `start()` on the already-active LiDAR service
has no guard: it does not spawn a second generation loop (the collector
ignores the duplicate `start_collection`, leaving `loops_started`
unchanged) and reports `active=true`, but it refreshes `last_started` and
resets the error counter instead of returning the state unchanged. -/
theorem start_when_active :
    (∀ (s : UltrasonicState) (now : ℚ) (cfg : Option UltrasonicConfigUpdate),
       s.active = true →
       UltrasonicControlService.start s now cfg =
         (s, { success := false, active := true, config := some s.config,
               start_time := none })) ∧
    (∀ (s : LidarState) (col : LidarDataCollector) (nowMs nowEpoch : ℤ),
       s.active = true → col.collecting = true →
       LidarControlService.start s col nowMs nowEpoch none =
         ({ s with
              active := true, status := "operational",
              last_started := some nowMs, error_count := 0 },
          col,
          LidarStartResult.ok
            { s with
                active := true, status := "operational",
                last_started := some nowMs, error_count := 0 })) := by
  constructor
  · intro s now cfg h
    simp [UltrasonicControlService.start, h]
  · intro s col nowMs nowEpoch _ hcol
    simp [LidarControlService.start, LidarDataCollector.start_collection, hcol]

/-- Witness for C2 at concrete active services. -/
theorem start_when_active_witness :
    UltrasonicControlService.start activeUltrasonicFixture 5 none =
      (activeUltrasonicFixture,
       { success := false, active := true,
         config := some activeUltrasonicFixture.config, start_time := none }) ∧
    LidarControlService.start activeLidarFixture collectingFixture 200 2 none =
      ({ activeLidarFixture with
           active := true, status := "operational",
           last_started := some 200, error_count := 0 },
       collectingFixture,
       LidarStartResult.ok
         { activeLidarFixture with
             active := true, status := "operational",
             last_started := some 200, error_count := 0 }) :=
  ⟨start_when_active.1 activeUltrasonicFixture 5 none rfl,
   start_when_active.2 activeLidarFixture collectingFixture 200 2 rfl rfl⟩

/-- Counterexample to C2 as stated: a second `start()` on the active LiDAR
service does not return the current state unchanged — it refreshes
`last_started` and clears the error counter. -/
theorem lidar_start_not_idempotent :
    activeLidarFixture.active = true ∧
    (LidarControlService.start activeLidarFixture collectingFixture 200 2
        none).1 ≠ activeLidarFixture ∧
    ((LidarControlService.start activeLidarFixture collectingFixture 200 2
        none).1).last_started = some 200 ∧
    activeLidarFixture.last_started = some 100 := by
  refine ⟨rfl, ?_, rfl, rfl⟩
  intro h
  have := congrArg LidarState.last_started h
  simp [LidarControlService.start, LidarDataCollector.start_collection,
    activeLidarFixture, collectingFixture, LidarState.init] at this

/-- C1 (amended): both services validate and merge configuration fields one
at a time, in a fixed source order, assigning each valid field before
checking the next.  An invalid field raises a validation error that leaves
that field and every later field unchanged; when the invalid field is the
first present field in validation order (e.g. the rate in a rate-only
update) the configuration is byte-for-byte unchanged, but valid fields
validated earlier in the same update are already merged when the error is
raised.  When every check passes, all fields are merged and no error is
raised. -/
theorem applyConfig_sequential_validation :
    (∀ (s : LidarState) (r : ℚ) (res : Option String)
       (rf : Option RangeFilterUpdate), ¬ (1 ≤ r ∧ r ≤ 50) →
       LidarControlService.applyConfiguration s
         { scan_rate_hz := some r, resolution := res, range_filter := rf } =
         (s, some "Invalid scan rate")) ∧
    (∀ (s : LidarState) (r : ℚ) (res : String), (1 ≤ r ∧ r ≤ 50) →
       ¬ (res.toLower = "high" ∨ res.toLower = "medium" ∨ res.toLower = "low") →
       LidarControlService.applyConfiguration s
         { scan_rate_hz := some r, resolution := some res, range_filter := none } =
         ({ s with scan_rate_hz := r }, some "Invalid resolution")) ∧
    (∀ (s : LidarState) (r : ℚ) (res : String) (mn mx : ℚ),
       (1 ≤ r ∧ r ≤ 50) →
       (res.toLower = "high" ∨ res.toLower = "medium" ∨ res.toLower = "low") →
       (1/10 ≤ mn ∧ mn ≤ mx ∧ mx ≤ 100) →
       LidarControlService.applyConfiguration s
         { scan_rate_hz := some r, resolution := some res,
           range_filter := some { min_range_m := some mn, max_range_m := some mx } } =
         ({ s with
             scan_rate_hz := r, resolution := res.toLower,
             range_filter := { min_range_m := mn, max_range_m := mx } }, none)) ∧
    (∀ (c : UltrasonicConfig) (x : ℚ), ¬ (1/10 ≤ x ∧ x ≤ 100) →
       UltrasonicControlService.applyConfig c { sample_rate_hz := some x } =
         (c, some "sample_rate_hz must be between 0.1 and 100.0")) ∧
    (∀ (c : UltrasonicConfig) (n : ℤ) (x : ℚ),
       (1 ≤ n ∧ n ≤ 4) → ¬ (1/10 ≤ x ∧ x ≤ 100) →
       UltrasonicControlService.applyConfig c
         { sensors_enabled := some n, sample_rate_hz := some x } =
         ({ c with sensors_enabled := n },
          some "sample_rate_hz must be between 0.1 and 100.0")) := by
  refine ⟨?_, ?_, ?_, ?_, ?_⟩
  · intro s r res rf h
    simp only [LidarControlService.applyConfiguration, h, if_false]
  · intro s r res h1 h2
    simp only [LidarControlService.applyConfiguration, h1, h2, and_self,
      if_true, if_false]
  · intro s r res mn mx h1 h2 h3
    rcases h2 with h2 | h2 | h2 <;>
      simp only [LidarControlService.applyConfiguration, Option.getD_some,
        h1, h2, h3, and_self, if_true, if_false, eq_self_iff_true, true_or,
        or_true]
  · intro c x h
    simp only [UltrasonicControlService.applyConfig, cfgStep, h, if_false]
  · intro c n x h1 h2
    simp only [UltrasonicControlService.applyConfig, cfgStep, h1, h2,
      and_self, if_true, if_false]

/-- Witness for C1: a valid sensor count followed by an invalid sample rate
on the default ultrasonic config. -/
theorem applyConfig_sequential_validation_witness :
    ((1:ℤ) ≤ 2 ∧ (2:ℤ) ≤ 4) ∧ ¬ ((1:ℚ)/10 ≤ 0 ∧ (0:ℚ) ≤ 100) ∧
    UltrasonicControlService.applyConfig UltrasonicConfig.default
        { sensors_enabled := some 2, sample_rate_hz := some 0 } =
      ({ UltrasonicConfig.default with sensors_enabled := 2 },
       some "sample_rate_hz must be between 0.1 and 100.0") :=
  ⟨by norm_num, by norm_num,
   applyConfig_sequential_validation.2.2.2.2 UltrasonicConfig.default 2 0
     (by norm_num) (by norm_num)⟩

/-- Counterexample to C1 as stated: an update whose invalid field is
preceded by a valid field raises the validation error but does not leave
the configuration byte-for-byte unchanged — the valid `sensors_enabled`
field is already merged. -/
theorem applyConfig_partial_merge_on_error :
    ((UltrasonicControlService.applyConfig UltrasonicConfig.default
        { sensors_enabled := some 2, sample_rate_hz := some 0 }).2).isSome = true ∧
    (UltrasonicControlService.applyConfig UltrasonicConfig.default
        { sensors_enabled := some 2, sample_rate_hz := some 0 }).1 ≠
      UltrasonicConfig.default ∧
    ((UltrasonicControlService.applyConfig UltrasonicConfig.default
        { sensors_enabled := some 2, sample_rate_hz := some 0 }).1).sensors_enabled
      = 2 := by
  have hval : (1:ℤ) ≤ 2 ∧ (2:ℤ) ≤ 4 := by norm_num
  have hbad : ¬ ((1:ℚ)/10 ≤ 0 ∧ (0:ℚ) ≤ 100) := by norm_num
  have heval :
      UltrasonicControlService.applyConfig UltrasonicConfig.default
          { sensors_enabled := some 2, sample_rate_hz := some 0 } =
        ({ UltrasonicConfig.default with sensors_enabled := 2 },
         some "sample_rate_hz must be between 0.1 and 100.0") := by
    simp only [UltrasonicControlService.applyConfig, cfgStep, hval, hbad,
      and_self, if_true, if_false]
  refine ⟨by simp [heval], ?_, by simp [heval]⟩
  rw [heval]
  intro h
  have h2 := congrArg UltrasonicConfig.sensors_enabled h
  simp [UltrasonicConfig.default] at h2

/-- C8 (amended): the LiDAR `_apply_configuration` accepts a range filter
exactly when `0.1 ≤ min ≤ max ≤ 100.0` — bounds where `min` equals `max`
are accepted, not rejected; on acceptance the filter is applied and on
rejection the state is left unchanged. -/
theorem range_filter_acceptance :
    ∀ (s : LidarState) (mn mx : ℚ),
      ((LidarControlService.applyConfiguration s
          { range_filter := some { min_range_m := some mn, max_range_m := some mx } }).2
          = none ↔ (1/10 ≤ mn ∧ mn ≤ mx ∧ mx ≤ 100)) ∧
      ((1/10 ≤ mn ∧ mn ≤ mx ∧ mx ≤ 100) →
        (LidarControlService.applyConfiguration s
          { range_filter := some { min_range_m := some mn, max_range_m := some mx } }).1
          = { s with range_filter := { min_range_m := mn, max_range_m := mx } }) ∧
      (¬ (1/10 ≤ mn ∧ mn ≤ mx ∧ mx ≤ 100) →
        (LidarControlService.applyConfiguration s
          { range_filter := some { min_range_m := some mn, max_range_m := some mx } }).1
          = s) := by
  intro s mn mx
  by_cases h : 1/10 ≤ mn ∧ mn ≤ mx ∧ mx ≤ 100
  · refine ⟨?_, fun _ => ?_, fun hn => absurd h hn⟩ <;>
      simp only [LidarControlService.applyConfiguration, Option.getD_some,
        h, and_self, if_true, iff_true]
  · refine ⟨?_, fun hc => absurd hc h, fun _ => ?_⟩ <;>
      simp only [LidarControlService.applyConfiguration, Option.getD_some,
        h, if_false, iff_false]
    simp

/-- Witness for C8 at an accepted concrete filter. -/
theorem range_filter_acceptance_witness :
    ((1:ℚ)/10 ≤ 2 ∧ (2:ℚ) ≤ 40 ∧ (40:ℚ) ≤ 100) ∧
    (LidarControlService.applyConfiguration LidarState.init
        { range_filter := some { min_range_m := some 2, max_range_m := some 40 } }).1
      = { LidarState.init with
            range_filter := { min_range_m := 2, max_range_m := 40 } } :=
  ⟨by norm_num,
   (range_filter_acceptance LidarState.init 2 40).2.1 (by norm_num)⟩

/-- Counterexample to C8 as stated: a filter with `min = max = 5` is
accepted by the code (no error, filter applied), while the claim requires
rejecting every filter whose bounds are equal. -/
theorem range_filter_accepts_equal_bounds :
    (LidarControlService.applyConfiguration LidarState.init
        { range_filter := some { min_range_m := some 5, max_range_m := some 5 } }).2
      = none ∧
    ((LidarControlService.applyConfiguration LidarState.init
        { range_filter := some { min_range_m := some 5, max_range_m := some 5 } }).1).range_filter
      = { min_range_m := 5, max_range_m := 5 } := by
  have h : (1:ℚ)/10 ≤ 5 ∧ (5:ℚ) ≤ 5 ∧ (5:ℚ) ≤ 100 := by norm_num
  constructor <;>
    simp only [LidarControlService.applyConfiguration, Option.getD_some, h,
      and_self, if_true]

/-- C9 (amended): `get_current_telemetry` returns `none` exactly when the
collector is not collecting or no sample has been cached yet; while
collecting, the cached sample — possibly generated earlier in the session —
is returned. -/
theorem get_current_telemetry_spec :
    ∀ (c : LidarDataCollector),
      (c.get_current_telemetry = none ↔
        (c.collecting = false ∨ c.current_telemetry = none)) ∧
      (∀ t : LidarTelemetry, c.collecting = true → c.current_telemetry = some t →
        c.get_current_telemetry = some t) := by
  intro c
  constructor
  · cases hc : c.collecting <;>
      cases ht : c.current_telemetry <;>
        simp [LidarDataCollector.get_current_telemetry, hc, ht]
  · intro t hc ht
    simp [LidarDataCollector.get_current_telemetry, hc, ht]

/-- Witness for C9 at a collecting collector holding a cached sample. -/
theorem get_current_telemetry_spec_witness :
    ({ collectingFixture with current_telemetry := some lidarSampleFixture } :
        LidarDataCollector).get_current_telemetry = some lidarSampleFixture :=
  (get_current_telemetry_spec
      { collectingFixture with current_telemetry := some lidarSampleFixture }).2
    lidarSampleFixture rfl rfl

/-- Counterexample to C9 as stated: after a session generated a sample and
collection stopped, a sample has been generated (the session log is
nonempty and the cached slot is full) yet the read returns `none`. -/
theorem get_current_telemetry_none_after_stop :
    stoppedCollectorFixture.telemetry_entries ≠ [] ∧
    stoppedCollectorFixture.current_telemetry.isSome = true ∧
    stoppedCollectorFixture.get_current_telemetry = none := by
  refine ⟨?_, ?_, ?_⟩ <;>
    simp [stoppedCollectorFixture, LidarDataCollector.init,
      LidarDataCollector.start_collection, LidarDataCollector.collection_tick,
      LidarDataCollector.stop_collection,
      LidarDataCollector.get_current_telemetry]

/-- C7: with the range filter [0.5, 30.0], every generated sample reports a
max-range value within [28.5, 30.0] (in fact within [29.0, 30.0]) and a
min-range value of at least 0.5, for every randomness draw inside the
bounds of the random calls. -/
theorem generated_ranges_within_filter :
    ∀ (p : LidarParams) (now : ℤ) (o : LidarGenOracle),
      p.range_filter = { min_range_m := 1/2, max_range_m := 30 } →
      LidarGenOracle.inRange p o →
      (LidarDataCollector.generate_telemetry_data p now o).max_range ≤ 30 ∧
      57/2 ≤ (LidarDataCollector.generate_telemetry_data p now o).max_range ∧
      1/2 ≤ (LidarDataCollector.generate_telemetry_data p now o).min_range := by
  intro p now o hrf ho
  simp only [LidarGenOracle.inRange, hrf] at ho
  obtain ⟨-, -, hmax1, hmax2, hmin1, hmin2, -⟩ := ho
  have hmv : min (1:ℚ) (30 * (5/100)) = 1 := by norm_num
  have hnv : min ((5:ℚ)/100) (1/2 * (1/10)) = 1/20 := by norm_num
  rw [hmv] at hmax1
  rw [hnv] at hmin2
  have hxm1 : (29:ℚ) ≤ min (30 + o.u_max) 30 := by
    refine le_min (by linarith) (by norm_num)
  have hxm2 : min (30 + o.u_max) 30 ≤ 30 := min_le_right _ _
  have hyn1 : (1/2:ℚ) ≤ max (1/2 + o.u_min) (1/2) := le_max_right _ _
  have hyn2 : max (1/2 + o.u_min) (1/2) ≤ 11/20 := by
    refine max_le (by linarith) (by norm_num)
  obtain ⟨hb1, hb2⟩ :=
    pyRound_bounds 1 290 300 (min (30 + o.u_max) 30)
      (by push_cast; nlinarith) (by push_cast; nlinarith)
  obtain ⟨hc1, hc2⟩ :=
    pyRound_bounds 2 50 55 (max (1/2 + o.u_min) (1/2))
      (by push_cast; nlinarith) (by push_cast; nlinarith)
  norm_num at hb1 hb2 hc1 hc2
  simp only [LidarDataCollector.generate_telemetry_data, hrf]
  refine ⟨by linarith, by linarith, by linarith⟩

/-- Witness for C7 at the default parameters and a concrete oracle. -/
theorem generated_ranges_within_filter_witness :
    LidarDataCollector.init.parameters.range_filter =
      { min_range_m := 1/2, max_range_m := 30 } ∧
    LidarGenOracle.inRange LidarDataCollector.init.parameters genOracleFixture ∧
    (LidarDataCollector.generate_telemetry_data
        LidarDataCollector.init.parameters 100000 genOracleFixture).max_range
      ≤ 30 ∧
    57/2 ≤ (LidarDataCollector.generate_telemetry_data
        LidarDataCollector.init.parameters 100000 genOracleFixture).max_range ∧
    1/2 ≤ (LidarDataCollector.generate_telemetry_data
        LidarDataCollector.init.parameters 100000 genOracleFixture).min_range := by
  have h1 : LidarDataCollector.init.parameters.range_filter =
      { min_range_m := 1/2, max_range_m := 30 } := rfl
  have h2 : LidarGenOracle.inRange LidarDataCollector.init.parameters
      genOracleFixture := by
    simp only [LidarGenOracle.inRange, LidarDataCollector.init,
      genOracleFixture]
    norm_num
    decide
  exact ⟨h1, h2, generated_ranges_within_filter _ 100000 _ h1 h2⟩

theorem analyze_proximity_thresholds (d : ProximityDetector) (i : ℕ)
    (dist conf now : ℚ) (app : Bool) :
    ((d.analyze_proximity i dist conf now app).1).sensor_thresholds =
      d.sensor_thresholds := by
  simp only [ProximityDetector.analyze_proximity]
  split_ifs <;> try rfl
  all_goals cases trackLookup d.alert_duration_tracking i <;> rfl

theorem analyze_proximity_confidence (d : ProximityDetector) (i : ℕ)
    (dist conf now : ℚ) (app : Bool) :
    ((d.analyze_proximity i dist conf now app).1).confidence_threshold =
      d.confidence_threshold := by
  simp only [ProximityDetector.analyze_proximity]
  split_ifs <;> try rfl
  all_goals cases trackLookup d.alert_duration_tracking i <;> rfl

theorem analyze_proximity_detecting (d : ProximityDetector) (i : ℕ)
    (dist conf now : ℚ) (app : Bool) :
    ((d.analyze_proximity i dist conf now app).1).detecting = d.detecting := by
  simp only [ProximityDetector.analyze_proximity]
  split_ifs <;> try rfl
  all_goals cases trackLookup d.alert_duration_tracking i <;> rfl

theorem analyze_proximity_callback (d : ProximityDetector) (i : ℕ)
    (dist conf now : ℚ) (app : Bool) :
    ((d.analyze_proximity i dist conf now app).1).hasCallback =
      d.hasCallback := by
  simp only [ProximityDetector.analyze_proximity]
  split_ifs <;> try rfl
  all_goals cases trackLookup d.alert_duration_tracking i <;> rfl

theorem analyze_proximity_count (d : ProximityDetector) (i : ℕ)
    (dist conf now : ℚ) (app : Bool) :
    ((d.analyze_proximity i dist conf now app).1).detection_count =
      d.detection_count := by
  simp only [ProximityDetector.analyze_proximity]
  split_ifs <;> try rfl
  all_goals cases trackLookup d.alert_duration_tracking i <;> rfl

theorem analyze_proximity_thresholdOf (d : ProximityDetector) (i : ℕ)
    (dist conf now : ℚ) (app : Bool) (j : ℕ) :
    ((d.analyze_proximity i dist conf now app).1).thresholdOf j =
      d.thresholdOf j := by
  unfold ProximityDetector.thresholdOf
  rw [analyze_proximity_thresholds]

theorem analyze_proximity_snd (d : ProximityDetector) (i : ℕ)
    (dist conf now : ℚ) (app : Bool) :
    (d.analyze_proximity i dist conf now app).2 =
      if d.confidence_threshold ≤ conf ∧ dist ≤ d.thresholdOf i then
        some { sensor_id := i, distance_cm := dist,
               threshold_cm := d.thresholdOf i,
               duration_ms := d.durationOf i now,
               object_approaching := app, confidence := conf }
      else none := by
  unfold ProximityDetector.analyze_proximity ProximityDetector.durationOf
  by_cases h1 : conf < d.confidence_threshold
  · rw [if_pos h1, if_neg]
    exact fun hc => absurd hc.1 (not_le.mpr h1)
  · rw [if_neg h1]
    by_cases h2 : dist ≤ d.thresholdOf i
    · rw [if_pos h2, if_pos ⟨not_lt.mp h1, h2⟩]
      cases trackLookup d.alert_duration_tracking i <;> rfl
    · rw [if_neg h2, if_neg fun hc => absurd hc.2 h2]

theorem processChannels_spec (d : ProximityDetector) (s : UltrasonicSample)
    (now : ℚ) (approach : ℕ → Bool) :
    ∃ f : ℕ → ℤ,
      (d.processChannels s now approach).2 =
        (if d.confidence_threshold ≤ s.conf 1 ∧ s.dist 1 ≤ d.thresholdOf 1 then
          [{ sensor_id := 1, distance_cm := s.dist 1,
             threshold_cm := d.thresholdOf 1, duration_ms := f 1,
             object_approaching := approach 1, confidence := s.conf 1 }]
         else []) ++
        (if d.confidence_threshold ≤ s.conf 2 ∧ s.dist 2 ≤ d.thresholdOf 2 then
          [{ sensor_id := 2, distance_cm := s.dist 2,
             threshold_cm := d.thresholdOf 2, duration_ms := f 2,
             object_approaching := approach 2, confidence := s.conf 2 }]
         else []) ++
        (if d.confidence_threshold ≤ s.conf 3 ∧ s.dist 3 ≤ d.thresholdOf 3 then
          [{ sensor_id := 3, distance_cm := s.dist 3,
             threshold_cm := d.thresholdOf 3, duration_ms := f 3,
             object_approaching := approach 3, confidence := s.conf 3 }]
         else []) ++
        (if d.confidence_threshold ≤ s.conf 4 ∧ s.dist 4 ≤ d.thresholdOf 4 then
          [{ sensor_id := 4, distance_cm := s.dist 4,
             threshold_cm := d.thresholdOf 4, duration_ms := f 4,
             object_approaching := approach 4, confidence := s.conf 4 }]
         else []) := by
  refine ⟨fun j =>
    match j with
    | 1 => d.durationOf 1 now
    | 2 => ((d.analyze_proximity 1 (s.dist 1) (s.conf 1) now
        (approach 1)).1).durationOf 2 now
    | 3 => (((d.analyze_proximity 1 (s.dist 1) (s.conf 1) now
        (approach 1)).1.analyze_proximity 2 (s.dist 2) (s.conf 2) now
        (approach 2)).1).durationOf 3 now
    | _ => ((((d.analyze_proximity 1 (s.dist 1) (s.conf 1) now
        (approach 1)).1.analyze_proximity 2 (s.dist 2) (s.conf 2) now
        (approach 2)).1.analyze_proximity 3 (s.dist 3) (s.conf 3) now
        (approach 3)).1).durationOf 4 now, ?_⟩
  simp only [ProximityDetector.processChannels, analyze_proximity_snd,
    analyze_proximity_confidence, analyze_proximity_thresholds,
    analyze_proximity_thresholdOf]
  by_cases c1 : d.confidence_threshold ≤ s.conf 1 ∧ s.dist 1 ≤ d.thresholdOf 1 <;>
  by_cases c2 : d.confidence_threshold ≤ s.conf 2 ∧ s.dist 2 ≤ d.thresholdOf 2 <;>
  by_cases c3 : d.confidence_threshold ≤ s.conf 3 ∧ s.dist 3 ≤ d.thresholdOf 3 <;>
  by_cases c4 : d.confidence_threshold ≤ s.conf 4 ∧ s.dist 4 ≤ d.thresholdOf 4 <;>
    simp [c1, c2, c3, c4]

theorem minByDistance_cons (a x : AlertData) (xs : List AlertData) :
    minByDistance a (x :: xs) =
      minByDistance (if x.distance_cm < a.distance_cm then x else a) xs := by
  simp [minByDistance]

theorem minByDistance_mem (a : AlertData) (l : List AlertData) :
    minByDistance a l = a ∨ minByDistance a l ∈ l := by
  induction l generalizing a with
  | nil => left; rfl
  | cons x xs ih =>
    rw [minByDistance_cons]
    rcases ih (if x.distance_cm < a.distance_cm then x else a) with h | h
    · rw [h]
      split_ifs with hx
      · right; exact List.mem_cons_self x xs
      · left; rfl
    · right; exact List.mem_cons_of_mem x h

theorem minByDistance_le (a : AlertData) (l : List AlertData) :
    (minByDistance a l).distance_cm ≤ a.distance_cm ∧
    ∀ b ∈ l, (minByDistance a l).distance_cm ≤ b.distance_cm := by
  induction l generalizing a with
  | nil => exact ⟨le_refl _, by simp⟩
  | cons x xs ih =>
    rw [minByDistance_cons]
    obtain ⟨h1, h2⟩ := ih (if x.distance_cm < a.distance_cm then x else a)
    constructor
    · refine le_trans h1 ?_
      split_ifs with hx
      · exact le_of_lt hx
      · exact le_refl _
    · intro b hb
      rcases List.mem_cons.mp hb with rfl | hb
      · refine le_trans h1 ?_
        split_ifs with hx
        · exact le_refl _
        · exact not_lt.mp hx
      · exact h2 b hb

theorem processChannels_nil_iff (d : ProximityDetector) (s : UltrasonicSample)
    (now : ℚ) (approach : ℕ → Bool) :
    ((d.processChannels s now approach).2 = [] ↔ d.wouldAlert s = false) := by
  obtain ⟨f, hf⟩ := processChannels_spec d s now approach
  rw [hf]
  by_cases c1 : d.confidence_threshold ≤ s.conf 1 ∧ s.dist 1 ≤ d.thresholdOf 1 <;>
  by_cases c2 : d.confidence_threshold ≤ s.conf 2 ∧ s.dist 2 ≤ d.thresholdOf 2 <;>
  by_cases c3 : d.confidence_threshold ≤ s.conf 3 ∧ s.dist 3 ≤ d.thresholdOf 3 <;>
  by_cases c4 : d.confidence_threshold ≤ s.conf 4 ∧ s.dist 4 ≤ d.thresholdOf 4 <;>
    simp [ProximityDetector.wouldAlert, ProximityDetector.channelAlerting,
      c1, c2, c3, c4]

theorem processChannels_fst_detecting (d : ProximityDetector)
    (s : UltrasonicSample) (now : ℚ) (approach : ℕ → Bool) :
    ((d.processChannels s now approach).1).detecting = d.detecting := by
  simp only [ProximityDetector.processChannels, analyze_proximity_detecting]

theorem processChannels_fst_callback (d : ProximityDetector)
    (s : UltrasonicSample) (now : ℚ) (approach : ℕ → Bool) :
    ((d.processChannels s now approach).1).hasCallback = d.hasCallback := by
  simp only [ProximityDetector.processChannels, analyze_proximity_callback]

theorem processChannels_fst_thresholds (d : ProximityDetector)
    (s : UltrasonicSample) (now : ℚ) (approach : ℕ → Bool) :
    ((d.processChannels s now approach).1).sensor_thresholds =
      d.sensor_thresholds := by
  simp only [ProximityDetector.processChannels, analyze_proximity_thresholds]

theorem processChannels_fst_confidence (d : ProximityDetector)
    (s : UltrasonicSample) (now : ℚ) (approach : ℕ → Bool) :
    ((d.processChannels s now approach).1).confidence_threshold =
      d.confidence_threshold := by
  simp only [ProximityDetector.processChannels, analyze_proximity_confidence]

theorem proximity_process_fields (d : ProximityDetector)
    (s : UltrasonicSample) (now : ℚ) (approach : ℕ → Bool) :
    ((d.process_telemetry_data s now approach).1).detecting = d.detecting ∧
    ((d.process_telemetry_data s now approach).1).hasCallback = d.hasCallback ∧
    ((d.process_telemetry_data s now approach).1).sensor_thresholds =
      d.sensor_thresholds ∧
    ((d.process_telemetry_data s now approach).1).confidence_threshold =
      d.confidence_threshold := by
  by_cases h : d.detecting = true
  · rcases hl : (d.processChannels s now approach).2 with _ | ⟨a, rest⟩ <;>
      simp [ProximityDetector.process_telemetry_data, h, hl,
        processChannels_fst_detecting, processChannels_fst_callback,
        processChannels_fst_thresholds, processChannels_fst_confidence]
  · simp [ProximityDetector.process_telemetry_data, h]

theorem proximity_process_callbacks (d : ProximityDetector)
    (s : UltrasonicSample) (now : ℚ) (approach : ℕ → Bool)
    (h : d.detecting = true) :
    (d.process_telemetry_data s now approach).2.2 =
      if d.hasCallback = true then
        ((d.process_telemetry_data s now approach).2.1).toList
      else [] := by
  rcases hl : (d.processChannels s now approach).2 with _ | ⟨a, rest⟩ <;>
    simp [ProximityDetector.process_telemetry_data, h, hl,
      processChannels_fst_callback, Option.toList, apply_ite]

theorem proximity_process_isSome (d : ProximityDetector)
    (s : UltrasonicSample) (now : ℚ) (approach : ℕ → Bool)
    (h : d.detecting = true) :
    ((d.process_telemetry_data s now approach).2.1).isSome =
      d.wouldAlert s := by
  rcases hl : (d.processChannels s now approach).2 with _ | ⟨a, rest⟩ <;>
    simp only [ProximityDetector.process_telemetry_data, h, not_true,
      if_false, hl, Option.isSome]
  · exact ((processChannels_nil_iff d s now approach).mp hl).symm
  · have hne := (processChannels_nil_iff d s now approach)
    rw [hl] at hne
    rcases hw : d.wouldAlert s with _ | _
    · exact absurd (hne.mpr hw) (by simp)
    · rfl

theorem trackLookup_trackSet_self (l : List (ℕ × ℚ)) (k : ℕ) (v : ℚ) :
    trackLookup (trackSet l k v) k = some v := by
  induction l with
  | nil => simp [trackSet, trackLookup]
  | cons p rest ih =>
    obtain ⟨q, w⟩ := p
    by_cases h : q = k <;> simp [trackSet, trackLookup, h, ih]

theorem trackLookup_eq_none_of_not_mem (l : List (ℕ × ℚ)) (k : ℕ)
    (h : k ∉ l.map Prod.fst) : trackLookup l k = none := by
  induction l with
  | nil => rfl
  | cons p rest ih =>
    obtain ⟨q, w⟩ := p
    simp only [List.map_cons, List.mem_cons, not_or] at h
    have hqk : ¬ q = k := fun hq => h.1 hq.symm
    simp [trackLookup, hqk, ih h.2]

theorem trackLookup_trackDel_self (l : List (ℕ × ℚ)) (k : ℕ)
    (h : (l.map Prod.fst).Nodup) : trackLookup (trackDel l k) k = none := by
  induction l with
  | nil => rfl
  | cons p rest ih =>
    obtain ⟨q, w⟩ := p
    simp only [List.map_cons, List.nodup_cons] at h
    by_cases hq : q = k
    · subst hq
      simp only [trackDel, if_pos rfl]
      exact trackLookup_eq_none_of_not_mem rest q h.1
    · simp [trackDel, trackLookup, hq, ih h.2]

theorem analyze_proximity_tracking (d : ProximityDetector) (i : ℕ)
    (dist conf now : ℚ) (app : Bool) :
    ((d.analyze_proximity i dist conf now app).1).alert_duration_tracking =
      if d.confidence_threshold ≤ conf then
        if dist ≤ d.thresholdOf i then
          (match trackLookup d.alert_duration_tracking i with
           | none => trackSet d.alert_duration_tracking i now
           | some _ => d.alert_duration_tracking)
        else trackDel d.alert_duration_tracking i
      else d.alert_duration_tracking := by
  simp only [ProximityDetector.analyze_proximity]
  by_cases h1 : conf < d.confidence_threshold
  · rw [if_pos h1, if_neg (not_le.mpr h1)]
  · rw [if_neg h1, if_pos (not_lt.mp h1)]
    by_cases h2 : dist ≤ d.thresholdOf i
    · rw [if_pos h2, if_pos h2]
      cases hL : trackLookup d.alert_duration_tracking i <;> simp [hL]
    · rw [if_neg h2, if_neg h2]

/-- C6 (amended): per-channel alert-duration tracking of the proximity
detector.  A tracking entry is created on the first analysis where the
channel crosses its threshold (reporting duration 0); subsequent
consecutive alerting analyses keep the entry and report the elapsed
milliseconds since the first crossing — strictly increasing when the
analyses are at least one millisecond apart; the entry is deleted when an
analysis with confidence at or above the confidence threshold sees the
distance above the channel threshold (a clearing reading with low
confidence leaves the entry untouched, see the counterexample); a
re-crossing after such a deletion starts the duration again at 0. -/
theorem alert_duration_tracking_dynamics :
    ∀ (d : ProximityDetector) (i : ℕ) (dist conf now : ℚ) (app : Bool),
      (trackLookup d.alert_duration_tracking i = none →
        d.confidence_threshold ≤ conf → dist ≤ d.thresholdOf i →
        (d.analyze_proximity i dist conf now app).2 =
          some { sensor_id := i, distance_cm := dist,
                 threshold_cm := d.thresholdOf i, duration_ms := 0,
                 object_approaching := app, confidence := conf } ∧
        trackLookup
          ((d.analyze_proximity i dist conf now app).1).alert_duration_tracking
          i = some now) ∧
      (∀ t0 : ℚ, trackLookup d.alert_duration_tracking i = some t0 →
        d.confidence_threshold ≤ conf → dist ≤ d.thresholdOf i →
        (d.analyze_proximity i dist conf now app).2 =
          some { sensor_id := i, distance_cm := dist,
                 threshold_cm := d.thresholdOf i,
                 duration_ms := truncQ ((now - t0) * 1000),
                 object_approaching := app, confidence := conf } ∧
        ((d.analyze_proximity i dist conf now app).1).alert_duration_tracking
          = d.alert_duration_tracking) ∧
      (∀ t0 n1 n2 : ℚ, t0 ≤ n1 → n1 + 1/1000 ≤ n2 →
        truncQ ((n1 - t0) * 1000) < truncQ ((n2 - t0) * 1000)) ∧
      ((d.alert_duration_tracking.map Prod.fst).Nodup →
        d.confidence_threshold ≤ conf → d.thresholdOf i < dist →
        trackLookup
          ((d.analyze_proximity i dist conf now app).1).alert_duration_tracking
          i = none) ∧
      ((d.alert_duration_tracking.map Prod.fst).Nodup →
        d.confidence_threshold ≤ conf → d.thresholdOf i < dist →
        ∀ (dist2 conf2 now2 : ℚ) (app2 : Bool),
          d.confidence_threshold ≤ conf2 → dist2 ≤ d.thresholdOf i →
          (((d.analyze_proximity i dist conf now app).1).analyze_proximity i
              dist2 conf2 now2 app2).2 =
            some { sensor_id := i, distance_cm := dist2,
                   threshold_cm := d.thresholdOf i, duration_ms := 0,
                   object_approaching := app2, confidence := conf2 }) := by
  intro d i dist conf now app
  refine ⟨?_, ?_, ?_, ?_, ?_⟩
  · intro h1 h2 h3
    constructor
    · rw [analyze_proximity_snd, if_pos ⟨h2, h3⟩]
      simp [ProximityDetector.durationOf, h1]
    · rw [analyze_proximity_tracking, if_pos h2, if_pos h3, h1]
      exact trackLookup_trackSet_self _ _ _
  · intro t0 h1 h2 h3
    constructor
    · rw [analyze_proximity_snd, if_pos ⟨h2, h3⟩]
      simp [ProximityDetector.durationOf, h1]
    · rw [analyze_proximity_tracking, if_pos h2, if_pos h3, h1]
  · intro t0 n1 n2 hta htb
    have hx : (0:ℚ) ≤ (n1 - t0) * 1000 :=
      mul_nonneg (by linarith) (by norm_num)
    have hy : (0:ℚ) ≤ (n2 - t0) * 1000 :=
      mul_nonneg (by linarith) (by norm_num)
    have hstep : (n1 - t0) * 1000 + 1 ≤ (n2 - t0) * 1000 := by nlinarith
    have hfl : Int.floor ((n1 - t0) * 1000) + 1 ≤
        Int.floor ((n2 - t0) * 1000) := by
      have h := Int.floor_le_floor hstep
      rwa [Int.floor_add_one] at h
    unfold truncQ
    rw [if_pos hx, if_pos hy]
    omega
  · intro hnodup h2 h3
    rw [analyze_proximity_tracking, if_pos h2, if_neg (not_le.mpr h3)]
    exact trackLookup_trackDel_self _ _ hnodup
  · intro hnodup h2 h3 dist2 conf2 now2 app2 hc2 hd2
    have hnone : trackLookup
        ((d.analyze_proximity i dist conf now app).1).alert_duration_tracking
        i = none := by
      rw [analyze_proximity_tracking, if_pos h2, if_neg (not_le.mpr h3)]
      exact trackLookup_trackDel_self _ _ hnodup
    rw [analyze_proximity_snd, analyze_proximity_confidence,
      analyze_proximity_thresholdOf, if_pos ⟨hc2, hd2⟩]
    simp [ProximityDetector.durationOf, hnone]

/-- Witness for C6: first crossing of sensor 1 at 40 cm under threshold 50
with confidence 0.9 creates the tracking entry and reports duration 0. -/
theorem alert_duration_tracking_dynamics_witness :
    trackLookup (ProximityDetector.init true).alert_duration_tracking 1 = none ∧
    (ProximityDetector.init true).confidence_threshold ≤ 9/10 ∧
    (40:ℚ) ≤ (ProximityDetector.init true).thresholdOf 1 ∧
    ((ProximityDetector.init true).analyze_proximity 1 40 (9/10) 10 true).2 =
      some { sensor_id := 1, distance_cm := 40,
             threshold_cm := (ProximityDetector.init true).thresholdOf 1,
             duration_ms := 0, object_approaching := true,
             confidence := 9/10 } ∧
    trackLookup
      (((ProximityDetector.init true).analyze_proximity 1 40 (9/10) 10
          true).1).alert_duration_tracking 1 = some 10 := by
  have h1 : trackLookup (ProximityDetector.init true).alert_duration_tracking 1
      = none := rfl
  have h2 : (ProximityDetector.init true).confidence_threshold ≤ 9/10 := by
    norm_num [ProximityDetector.init]
  have h3 : (40:ℚ) ≤ (ProximityDetector.init true).thresholdOf 1 := by
    norm_num [ProximityDetector.thresholdOf, ProximityDetector.init,
      trackLookup]
  obtain ⟨ha, hb⟩ :=
    (alert_duration_tracking_dynamics (ProximityDetector.init true) 1 40
        (9/10) 10 true).1 h1 h2 h3
  exact ⟨h1, h2, h3, ha, hb⟩

/-- Counterexample to C6 as stated: after sensor 1 crossed at 40 cm, a
reading at 60 cm — above the 50 cm threshold, i.e. the channel has cleared —
with confidence 0.5 below the 0.8 confidence threshold does not delete the
tracking entry: the low-confidence early return skips the clearing branch. -/
theorem tracking_not_cleared_low_confidence :
    ((((ProximityDetector.init true).analyze_proximity 1 40 (9/10) 10
        true).1).thresholdOf 1) < 60 ∧
    trackLookup
      (((((ProximityDetector.init true).analyze_proximity 1 40 (9/10) 10
          true).1).analyze_proximity 1 60 (1/2) 11
          true).1).alert_duration_tracking 1 = some 10 := by
  have hd1 : (((ProximityDetector.init true).analyze_proximity 1 40 (9/10) 10
      true).1) =
      { ProximityDetector.init true with alert_duration_tracking := [(1, 10)] } := by
    norm_num [ProximityDetector.analyze_proximity, ProximityDetector.init,
      ProximityDetector.thresholdOf, trackLookup, trackSet]
  rw [hd1]
  constructor
  · norm_num [ProximityDetector.thresholdOf, ProximityDetector.init,
      trackLookup]
  · norm_num [ProximityDetector.analyze_proximity, ProximityDetector.init,
      trackLookup]

theorem mem_ite_nil (p : Prop) [Decidable p] (x a : AlertData) :
    (a ∈ if p then [x] else []) ↔ p ∧ a = x := by
  split_ifs with h <;> simp [h]

/-- C5: a channel of a sample is classified as alerting by the proximity
detector exactly when its distance is at or below the per-channel threshold
and its confidence is at or above the global confidence threshold; every
emitted alert carries its channel reading; and the emitted result reports
an alerting channel of minimal distance. -/
theorem proximity_alert_classification :
    ∀ (d : ProximityDetector) (s : UltrasonicSample) (now : ℚ)
      (approach : ℕ → Bool),
      (∀ i, i ∈ [1, 2, 3, 4] →
        ((∃ a ∈ (d.processChannels s now approach).2, a.sensor_id = i) ↔
          (d.confidence_threshold ≤ s.conf i ∧ s.dist i ≤ d.thresholdOf i))) ∧
      (∀ a ∈ (d.processChannels s now approach).2,
        a.distance_cm = s.dist a.sensor_id ∧
        a.confidence = s.conf a.sensor_id ∧
        a.threshold_cm = d.thresholdOf a.sensor_id) ∧
      (d.detecting = true →
        ∀ r, (d.process_telemetry_data s now approach).2.1 = some r →
          ∃ a ∈ (d.processChannels s now approach).2,
            r.sensor_id = a.sensor_id ∧ r.distance_cm = a.distance_cm ∧
            ∀ b ∈ (d.processChannels s now approach).2,
              a.distance_cm ≤ b.distance_cm) := by
  intro d s now approach
  obtain ⟨f, hf⟩ := processChannels_spec d s now approach
  refine ⟨?_, ?_, ?_⟩
  · intro i hi
    rw [hf]
    fin_cases hi
    · constructor
      · rintro ⟨a, ha, hid⟩
        simp only [List.mem_append, mem_ite_nil] at ha
        rcases ha with ((⟨hc, rfl⟩ | ⟨hc, rfl⟩) | ⟨hc, rfl⟩) | ⟨hc, rfl⟩ <;>
          first
            | exact hc
            | simp at hid
      · intro hc
        refine ⟨{ sensor_id := 1, distance_cm := s.dist 1,
                  threshold_cm := d.thresholdOf 1, duration_ms := f 1,
                  object_approaching := approach 1,
                  confidence := s.conf 1 }, ?_, rfl⟩
        simp only [List.mem_append, mem_ite_nil]
        simp [hc]
    · constructor
      · rintro ⟨a, ha, hid⟩
        simp only [List.mem_append, mem_ite_nil] at ha
        rcases ha with ((⟨hc, rfl⟩ | ⟨hc, rfl⟩) | ⟨hc, rfl⟩) | ⟨hc, rfl⟩ <;>
          first
            | exact hc
            | simp at hid
      · intro hc
        refine ⟨{ sensor_id := 2, distance_cm := s.dist 2,
                  threshold_cm := d.thresholdOf 2, duration_ms := f 2,
                  object_approaching := approach 2,
                  confidence := s.conf 2 }, ?_, rfl⟩
        simp only [List.mem_append, mem_ite_nil]
        simp [hc]
    · constructor
      · rintro ⟨a, ha, hid⟩
        simp only [List.mem_append, mem_ite_nil] at ha
        rcases ha with ((⟨hc, rfl⟩ | ⟨hc, rfl⟩) | ⟨hc, rfl⟩) | ⟨hc, rfl⟩ <;>
          first
            | exact hc
            | simp at hid
      · intro hc
        refine ⟨{ sensor_id := 3, distance_cm := s.dist 3,
                  threshold_cm := d.thresholdOf 3, duration_ms := f 3,
                  object_approaching := approach 3,
                  confidence := s.conf 3 }, ?_, rfl⟩
        simp only [List.mem_append, mem_ite_nil]
        simp [hc]
    · constructor
      · rintro ⟨a, ha, hid⟩
        simp only [List.mem_append, mem_ite_nil] at ha
        rcases ha with ((⟨hc, rfl⟩ | ⟨hc, rfl⟩) | ⟨hc, rfl⟩) | ⟨hc, rfl⟩ <;>
          first
            | exact hc
            | simp at hid
      · intro hc
        refine ⟨{ sensor_id := 4, distance_cm := s.dist 4,
                  threshold_cm := d.thresholdOf 4, duration_ms := f 4,
                  object_approaching := approach 4,
                  confidence := s.conf 4 }, ?_, rfl⟩
        simp only [List.mem_append, mem_ite_nil]
        simp [hc]
  · intro a ha
    rw [hf] at ha
    simp only [List.mem_append, mem_ite_nil] at ha
    rcases ha with ((⟨hc, rfl⟩ | ⟨hc, rfl⟩) | ⟨hc, rfl⟩) | ⟨hc, rfl⟩ <;>
      exact ⟨rfl, rfl, rfl⟩
  · intro hdet r hr
    rcases hl : (d.processChannels s now approach).2 with _ | ⟨a, rest⟩
    · simp only [ProximityDetector.process_telemetry_data, hdet, not_true,
        if_false, hl] at hr
      simp at hr
    · simp only [ProximityDetector.process_telemetry_data, hdet, not_true,
        if_false, hl] at hr
      simp only [Option.some.injEq] at hr
      obtain rfl := hr.symm
      obtain ⟨hle1, hle2⟩ := minByDistance_le a rest
      refine ⟨minByDistance a rest, ?_, rfl, rfl, ?_⟩
      · rcases minByDistance_mem a rest with h | h
        · rw [h]; exact List.mem_cons_self a rest
        · exact List.mem_cons_of_mem a h
      · intro b hb
        rcases List.mem_cons.mp hb with rfl | hb
        · exact hle1
        · exact hle2 b hb

/-- Witness for C5 at a concrete detector and sample: sensor 1 reads 40 cm
with confidence 0.9, so the alerting classification holds for channel 1. -/
theorem proximity_alert_classification_witness :
    (∃ a ∈ ((ProximityDetector.init true).processChannels
        ultrasonicSampleFixture 100 (fun _ => true)).2, a.sensor_id = 1) ↔
      ((ProximityDetector.init true).confidence_threshold ≤
          ultrasonicSampleFixture.conf 1 ∧
        ultrasonicSampleFixture.dist 1 ≤
          (ProximityDetector.init true).thresholdOf 1) :=
  (proximity_alert_classification (ProximityDetector.init true)
      ultrasonicSampleFixture 100 (fun _ => true)).1 1 (by simp)

theorem generate_detailed_detected (b : Bool) (conf : ℚ) (pc vp : ℤ)
    (o : OccOracle) (nowMs : ℤ) :
    (OccupancyDetector.generate_detailed_occupancy_data b conf pc vp o
        nowMs).detected = b := by
  cases b <;> simp [OccupancyDetector.generate_detailed_occupancy_data]

theorem occ_process_fields (d : OccupancyDetector) (sample : LidarTelemetry)
    (o : OccOracle) (nowMs : ℤ) :
    ((d.process_telemetry_data sample o nowMs).1).detecting = d.detecting ∧
    ((d.process_telemetry_data sample o nowMs).1).hasCallback =
      d.hasCallback := by
  by_cases h : d.detecting = true <;>
    simp [OccupancyDetector.process_telemetry_data, h]

theorem occ_process_cb_length (d : OccupancyDetector)
    (sample : LidarTelemetry) (o : OccOracle) (nowMs : ℤ)
    (h1 : d.detecting = true) (h2 : d.hasCallback = true) :
    ((d.process_telemetry_data sample o nowMs).2.2).length =
      if OccupancyDetector.analyze_point_cloud sample.point_count o.pick = true
      then 1 else 0 := by
  rcases hdet : OccupancyDetector.analyze_point_cloud sample.point_count o.pick
    with _ | _ <;>
    simp [OccupancyDetector.process_telemetry_data, h1, h2, hdet]

theorem prox_process_cb_length (d : ProximityDetector) (s : UltrasonicSample)
    (now : ℚ) (approach : ℕ → Bool) (h1 : d.detecting = true)
    (h2 : d.hasCallback = true) :
    ((d.process_telemetry_data s now approach).2.2).length =
      if d.wouldAlert s = true then 1 else 0 := by
  rw [proximity_process_callbacks d s now approach h1, if_pos h2]
  have hs := proximity_process_isSome d s now approach h1
  rcases hx : (d.process_telemetry_data s now approach).2.1 with _ | r <;>
    rw [hx] at hs <;> simp at hs <;> simp [hs]

theorem wouldAlert_congr (d1 d2 : ProximityDetector)
    (ht : d1.sensor_thresholds = d2.sensor_thresholds)
    (hc : d1.confidence_threshold = d2.confidence_threshold)
    (s : UltrasonicSample) : d1.wouldAlert s = d2.wouldAlert s := by
  unfold ProximityDetector.wouldAlert ProximityDetector.channelAlerting
    ProximityDetector.thresholdOf
  rw [ht, hc]

/-- C4: with a callback attached and detection active, each detector
variant invokes the publish callback on a `process_telemetry_data` call
exactly when that call detects (occupancy detected, resp. some channel
alerting — for the proximity variant a result is emitted only when
detected); consequently three consecutive calls whose detection outcomes
are true, false, true perform exactly two callback invocations. -/
theorem callback_iff_detected :
    (∀ (d : OccupancyDetector) (sample : LidarTelemetry) (o : OccOracle)
       (nMs : ℤ), d.detecting = true → d.hasCallback = true →
       ∃ r, (d.process_telemetry_data sample o nMs).2.1 = some r ∧
         r.values.detected =
           OccupancyDetector.analyze_point_cloud sample.point_count o.pick ∧
         (d.process_telemetry_data sample o nMs).2.2 =
           (if r.values.detected = true then [r] else [])) ∧
    (∀ (d : ProximityDetector) (s : UltrasonicSample) (now : ℚ)
       (approach : ℕ → Bool), d.detecting = true → d.hasCallback = true →
       (d.process_telemetry_data s now approach).2.2 =
         ((d.process_telemetry_data s now approach).2.1).toList ∧
       ((d.process_telemetry_data s now approach).2.1).isSome =
         d.wouldAlert s) ∧
    (∀ (d : OccupancyDetector) (s1 s2 s3 : LidarTelemetry)
       (o1 o2 o3 : OccOracle) (n1 n2 n3 : ℤ),
       d.detecting = true → d.hasCallback = true →
       OccupancyDetector.analyze_point_cloud s1.point_count o1.pick = true →
       OccupancyDetector.analyze_point_cloud s2.point_count o2.pick = false →
       OccupancyDetector.analyze_point_cloud s3.point_count o3.pick = true →
       ((d.process_telemetry_data s1 o1 n1).2.2).length +
       ((((d.process_telemetry_data s1 o1 n1).1).process_telemetry_data s2 o2
           n2).2.2).length +
       (((((d.process_telemetry_data s1 o1 n1).1).process_telemetry_data s2 o2
           n2).1).process_telemetry_data s3 o3 n3).2.2.length = 2) ∧
    (∀ (d : ProximityDetector) (s1 s2 s3 : UltrasonicSample)
       (now1 now2 now3 : ℚ) (approach : ℕ → Bool),
       d.detecting = true → d.hasCallback = true →
       d.wouldAlert s1 = true → d.wouldAlert s2 = false →
       d.wouldAlert s3 = true →
       ((d.process_telemetry_data s1 now1 approach).2.2).length +
       ((((d.process_telemetry_data s1 now1 approach).1).process_telemetry_data
           s2 now2 approach).2.2).length +
       (((((d.process_telemetry_data s1 now1
           approach).1).process_telemetry_data s2 now2
           approach).1).process_telemetry_data s3 now3
           approach).2.2.length = 2) := by
  refine ⟨?_, ?_, ?_, ?_⟩
  · intro d sample o nMs h1 h2
    refine ⟨{ ts := sample.ts,
              values := OccupancyDetector.generate_detailed_occupancy_data
                (OccupancyDetector.analyze_point_cloud sample.point_count
                  o.pick)
                (OccupancyDetector.calculate_confidence sample.point_count
                  sample.valid_points o.conf_jitter)
                sample.point_count sample.valid_points o nMs }, ?_, ?_, ?_⟩
    · simp [OccupancyDetector.process_telemetry_data, h1]
    · exact generate_detailed_detected _ _ _ _ _ _
    · rcases hdet : OccupancyDetector.analyze_point_cloud sample.point_count
        o.pick with _ | _ <;>
        simp [OccupancyDetector.process_telemetry_data, h1, h2, hdet,
          generate_detailed_detected]
  · intro d s now approach h1 h2
    exact ⟨by rw [proximity_process_callbacks d s now approach h1, if_pos h2],
           proximity_process_isSome d s now approach h1⟩
  · intro d s1 s2 s3 o1 o2 o3 n1 n2 n3 h1 h2 ht1 ht2 ht3
    obtain ⟨f1d, f1c⟩ := occ_process_fields d s1 o1 n1
    have h1b : ((d.process_telemetry_data s1 o1 n1).1).detecting = true := by
      rw [f1d]; exact h1
    have h2b : ((d.process_telemetry_data s1 o1 n1).1).hasCallback = true := by
      rw [f1c]; exact h2
    obtain ⟨f2d, f2c⟩ :=
      occ_process_fields ((d.process_telemetry_data s1 o1 n1).1) s2 o2 n2
    have h1c : ((((d.process_telemetry_data s1 o1 n1).1).process_telemetry_data
        s2 o2 n2).1).detecting = true := by rw [f2d]; exact h1b
    have h2c : ((((d.process_telemetry_data s1 o1 n1).1).process_telemetry_data
        s2 o2 n2).1).hasCallback = true := by rw [f2c]; exact h2b
    rw [occ_process_cb_length d s1 o1 n1 h1 h2,
      occ_process_cb_length _ s2 o2 n2 h1b h2b,
      occ_process_cb_length _ s3 o3 n3 h1c h2c, ht1, ht2, ht3]
    simp
  · intro d s1 s2 s3 now1 now2 now3 approach h1 h2 hw1 hw2 hw3
    obtain ⟨p1d, p1c, p1t, p1f⟩ := proximity_process_fields d s1 now1 approach
    have h1b : ((d.process_telemetry_data s1 now1 approach).1).detecting
        = true := by rw [p1d]; exact h1
    have h2b : ((d.process_telemetry_data s1 now1 approach).1).hasCallback
        = true := by rw [p1c]; exact h2
    have hw2b : ((d.process_telemetry_data s1 now1 approach).1).wouldAlert s2
        = false := by
      rw [wouldAlert_congr _ d p1t p1f]; exact hw2
    obtain ⟨p2d, p2c, p2t, p2f⟩ :=
      proximity_process_fields ((d.process_telemetry_data s1 now1 approach).1)
        s2 now2 approach
    have h1c : ((((d.process_telemetry_data s1 now1
        approach).1).process_telemetry_data s2 now2 approach).1).detecting
        = true := by rw [p2d]; exact h1b
    have h2c : ((((d.process_telemetry_data s1 now1
        approach).1).process_telemetry_data s2 now2 approach).1).hasCallback
        = true := by rw [p2c]; exact h2b
    have hw3c : ((((d.process_telemetry_data s1 now1
        approach).1).process_telemetry_data s2 now2 approach).1).wouldAlert s3
        = true := by
      rw [wouldAlert_congr _ ((d.process_telemetry_data s1 now1 approach).1)
        p2t p2f, wouldAlert_congr _ d p1t p1f]
      exact hw3
    rw [prox_process_cb_length d s1 now1 approach h1 h2,
      prox_process_cb_length _ s2 now2 approach h1b h2b,
      prox_process_cb_length _ s3 now3 approach h1c h2c,
      hw1, hw2b, hw3c]
    simp

/-- Witness for C4: three consecutive occupancy analyses with outcomes
true, false, true on a started detector perform exactly two callback
invocations. -/
theorem callback_iff_detected_witness :
    OccupancyDetector.analyze_point_cloud lidarSampleFixture.point_count
      genOracleFixtureOcc.pick = true ∧
    OccupancyDetector.analyze_point_cloud lidarSampleFixture.point_count
      ({ genOracleFixtureOcc with pick := 1 } : OccOracle).pick = false ∧
    (((((OccupancyDetector.init true).start_detection).1).process_telemetry_data
        lidarSampleFixture genOracleFixtureOcc 1).2.2).length +
    (((((((OccupancyDetector.init
        true).start_detection).1).process_telemetry_data lidarSampleFixture
        genOracleFixtureOcc 1).1).process_telemetry_data lidarSampleFixture
        { genOracleFixtureOcc with pick := 1 } 2).2.2).length +
    (((((((((OccupancyDetector.init
        true).start_detection).1).process_telemetry_data lidarSampleFixture
        genOracleFixtureOcc 1).1).process_telemetry_data lidarSampleFixture
        { genOracleFixtureOcc with pick := 1 } 2).1).process_telemetry_data
        lidarSampleFixture genOracleFixtureOcc 3).2.2).length = 2 :=
  ⟨by decide, by decide,
   callback_iff_detected.2.2.1 (((OccupancyDetector.init true).start_detection).1)
     lidarSampleFixture lidarSampleFixture lidarSampleFixture
     genOracleFixtureOcc { genOracleFixtureOcc with pick := 1 }
     genOracleFixtureOcc 1 2 3 rfl rfl (by decide) (by decide) (by decide)⟩

end Thingsboard
